import Mathlib

/-!
Verification development for the OneScore repository.

The definitions below are shallow embeddings of the Python source:
- `src/score.py` (ScoreObject and its derived properties),
- `src/image.py` (grid scoreboard layout, paste loop, progress bar, status lookup),
- `src/ext/listeners.py` (message score increment).

Machine floats are abstracted: the square root used by `ScoreObject.level`
is a parameter `sq : Rat → Rat`, and the literal 0.07 is modelled as the
rational 7/100.  Every theorem proved about the score model below holds for
an arbitrary `sq`, because evaluation of the relevant properties fails
before any arithmetic is performed.
-/

namespace OneScore

/-- Errors a property evaluation can end in.  `recursionError` models
Python's RecursionError (unbounded recursion, here: fuel exhaustion),
`attributeError` models an access to an attribute that does not exist,
and `invalidScore` is the error named by the specification for negative
scores (present in the error type so that spec claims about it can be
stated; the source never raises it). -/
inductive PyErr where
  | recursionError
  | attributeError
  | invalidScore
deriving DecidableEq, Repr

/-- The `ScoreObject` dataclass of `src/score.py`: fields `member_id`,
`guild_id` and the stored cumulative score (field `_score` in the source,
renamed `stored_score` here because Lean reserves leading underscores). -/
structure ScoreObject where
  member_id : Int
  guild_id : Int
  stored_score : Int
deriving DecidableEq, Repr

/-- `ScoreObject.total_score` (`src/score.py` line 57): returns the stored
`_score` field. -/
def ScoreObject.total_score (o : ScoreObject) : Int :=
  o.stored_score

section ScoreEval

-- Abstract model of the float `sqrt` from Python's `math` module.
variable (sq : Rat → Rat)

mutual

/-- The `score` property (`src/score.py` line 54):
`self.score - self.prev_level_score`.  Python evaluates `self.score`
first, which re-enters this very property, so the recursion never
reaches the subtraction.  `fuel` bounds the call depth; running out of
fuel is Python's RecursionError. -/
def score_eval : Nat → ScoreObject → Except PyErr Rat
  | 0, _ => .error .recursionError
  | fuel + 1, o => do
      let s ← score_eval fuel o
      let p ← prev_level_score_eval fuel o
      pure (s - p)

/-- The `level` property (`src/score.py` line 44):
`(0.07 * sqrt(max(self.score, 1))) + 1`, reading the `score` property. -/
def level_eval : Nat → ScoreObject → Except PyErr Rat
  | 0, _ => .error .recursionError
  | fuel + 1, o => do
      let s ← score_eval fuel o
      pure ((7 / 100) * sq (max s 1) + 1)

/-- The `prev_level_score` property (`src/score.py` line 84):
`(ceil(self.level - 2) / 0.07) ** 2`. -/
def prev_level_score_eval : Nat → ScoreObject → Except PyErr Rat
  | 0, _ => .error .recursionError
  | fuel + 1, o => do
      let l ← level_eval fuel o
      pure ((((⌈l - 2⌉ : Int) : Rat) / (7 / 100)) ^ 2)

/-- The `next_level_score` property (`src/score.py` line 74):
`(ceil(self.level - 1) / 0.07) ** 2`. -/
def next_level_score_eval : Nat → ScoreObject → Except PyErr Rat
  | 0, _ => .error .recursionError
  | fuel + 1, o => do
      let l ← level_eval fuel o
      pure ((((⌈l - 1⌉ : Int) : Rat) / (7 / 100)) ^ 2)

end

/-- The attribute `current_level_score` read by the `progress` property
(`src/score.py` line 95).  No such attribute is defined anywhere on
`ScoreObject`, so the lookup raises AttributeError. -/
def current_level_score_eval : Except PyErr Rat :=
  .error .attributeError

/-- The `progress` property (`src/score.py` lines 94-97):
`(self.current_level_score / (self.next_level_score - self.prev_level_score)) * 100`.
Python evaluates `self.current_level_score` first. -/
def progress_eval (fuel : Nat) (o : ScoreObject) : Except PyErr Rat := do
  let c ← current_level_score_eval
  let n ← next_level_score_eval sq fuel o
  let p ← prev_level_score_eval sq fuel o
  pure ((c / (n - p)) * 100)

/-- The operand handed to `sqrt` inside the `level` property
(`src/score.py` line 44): `max(score, 1)`. -/
def sqrt_arg (s : Rat) : Rat :=
  max s 1

/-- `ScoreEditor.draw_progress` (`src/image.py` lines 610-638): reads
`self.score.progress`, then draws the filled bar only when the progress is
strictly positive, at percentage `max(progress, 5)`; at zero progress no
bar is drawn (`none`). -/
def draw_progress_eval (fuel : Nat) (o : ScoreObject) : Except PyErr (Option Rat) := do
  let p ← progress_eval sq fuel o
  pure (if 0 < p then some (max p 5) else none)

end ScoreEval

/-- The bar-drawing decision of `ScoreEditor.draw_progress`
(`src/image.py` lines 630-638) as a function of an already-computed
progress value: drawn only when strictly positive, with percentage
`max(progress, 5)`. -/
def bar_percentage (progress : Rat) : Option Rat :=
  if 0 < progress then some (max progress 5) else none

/-- The rank query of `ScoreObject.rank` (`src/score.py` lines 29-34) uses
SQLite's `RANK() OVER (ORDER BY score DESC)` over the rows of one guild.
Its documented semantics: a row's rank is one plus the number of rows
ordered strictly before its peer group, i.e. one plus the number of rows
with a strictly greater score. -/
def rankOf (scores : List Int) (s : Int) : Nat :=
  1 + (scores.filter (fun t => s < t)).length

/-- The rank of every row of a guild's leaderboard, in row order. -/
def ranks (scores : List Int) : List Nat :=
  scores.map (rankOf scores)

/-- The discord.py `Status` enumeration matched by `get_status`: the five
presence states plus `streaming` (`do_not_disturb` is an alias of `dnd` in
discord.py, not a separate member). -/
inductive Status where
  | online
  | idle
  | dnd
  | offline
  | invisible
  | streaming
deriving DecidableEq, Repr

/-- The named `discord.Colour` constructors returned by `get_status`. -/
inductive NamedColour where
  | green
  | dark_gold
  | red
  | light_grey
  | blurple
deriving DecidableEq, Repr

/-- The shape of a status overlay icon built by `get_status`. -/
inductive IconShape where
  | circle
  | rounded_rect
deriving DecidableEq, Repr

/-- A status overlay icon: its shape and the canvas size it is built on. -/
structure StatusIcon where
  shape : IconShape
  width : Int
  height : Int
deriving DecidableEq, Repr

/-- Python's ValueError, raised by the catch-all branch of `get_status`. -/
inductive PyValueError where
  | valueError
deriving DecidableEq, Repr

/-- `get_status` (`src/image.py` lines 29-72): maps a status to its colour,
optional overlay icon and optional icon position; any other status raises
ValueError. -/
def get_status :
    Status → Except PyValueError (NamedColour × Option StatusIcon × Option (Int × Int))
  | .online => .ok (.green, none, none)
  | .idle => .ok (.dark_gold, some ⟨.circle, 50, 50⟩, some (5, 10))
  | .dnd => .ok (.red, some ⟨.rounded_rect, 50, 12⟩, some (20, 39))
  | .offline => .ok (.light_grey, some ⟨.circle, 40, 40⟩, some (25, 25))
  | .invisible => .ok (.blurple, none, none)
  | .streaming => .error .valueError

/-- A row of the `scores` table (`member_id`, `guild_id`, `score`,
`active`), as created and updated by `src/ext/listeners.py`. -/
structure ScoreRow where
  member_id : Int
  guild_id : Int
  score : Int
  active : Bool
deriving DecidableEq, Repr

/-- The SQL `UPDATE scores SET score = score + 30 WHERE member_id = ? AND
guild_id = ?` run by `ListenersCog.on_message`
(`src/ext/listeners.py` lines 159-163). -/
def update_scores (author_id guild_id : Int) (rows : List ScoreRow) : List ScoreRow :=
  rows.map fun r =>
    if r.member_id = author_id ∧ r.guild_id = guild_id then
      { r with score := r.score + 30 }
    else r

/-- `ListenersCog.on_message` (`src/ext/listeners.py` lines 151-163):
returns early when the author is a bot, otherwise runs the score update
for the author in the message's guild. -/
def on_message (author_is_bot : Bool) (author_id guild_id : Int)
    (rows : List ScoreRow) : List ScoreRow :=
  if author_is_bot then rows
  else update_scores author_id guild_id rows

namespace GridScoreboardEditor

/-- `GridScoreboardEditor.COL_WIDTH` (`src/image.py` line 279). -/
def COL_WIDTH : Int := 400

/-- `GridScoreboardEditor.COL_HEIGHT` (`src/image.py` line 280). -/
def COL_HEIGHT : Int := 400

/-- `GridScoreboardEditor.HEAD_HEIGHT` (`src/image.py` line 281). -/
def HEAD_HEIGHT : Int := 200

/-- `GridScoreboardEditor.MARGIN` (`src/image.py` line 282). -/
def MARGIN : Int := 60

/-- `GridScoreboardEditor.MAX_COLS` (`src/image.py` line 283). -/
def MAX_COLS : Nat := 6

/-- The position loop of `GridScoreboardEditor.draw`
(`src/image.py` lines 340-361): member `i` is handed the current
`(x_position, y_position)`, then `i` is incremented and, when it reaches a
multiple of `MAX_COLS`, the cursor wraps to the next row; otherwise it
advances one column. -/
def originsAux : Nat → Nat → Int → Int → List (Int × Int)
  | 0, _, _, _ => []
  | count + 1, i, x, y =>
      (x, y) ::
        (if (i + 1) % MAX_COLS = 0 then
          originsAux count (i + 1) MARGIN (y + (COL_HEIGHT + MARGIN))
        else
          originsAux count (i + 1) (x + (COL_WIDTH + MARGIN)) y)

/-- The planned origins for `n` members, starting from
`x_position = MARGIN`, `y_position = HEAD_HEIGHT + MARGIN`
(`src/image.py` lines 327-328). -/
def origins (n : Nat) : List (Int × Int) :=
  originsAux n 0 MARGIN (HEAD_HEIGHT + MARGIN)

/-- The origin planned for member index `i` out of `n`. -/
def originD (n i : Nat) : Int × Int :=
  (origins n).getD i (0, 0)

/-- Each completed render thread appends `(member_image, position)` to the
shared `done` list in completion order; a thread whose avatar fetch raises
dies before the append, so its member never reaches `done`
(`src/image.py` lines 332-338 and 454-468).  `completion` is the order in
which threads finish, `fetch_ok` tells which avatar fetches succeed. -/
def doneListWithFailures (n : Nat) (fetch_ok : Nat → Bool)
    (completion : List Nat) : List (Nat × (Int × Int)) :=
  (completion.filter fetch_ok).map (fun i => (i, originD n i))

/-- The `done` list when every avatar fetch succeeds. -/
def doneList (n : Nat) (completion : List Nat) : List (Nat × (Int × Int)) :=
  doneListWithFailures n (fun _ => true) completion

/-- Number of cells the paste loop (`src/image.py` lines 369-372)
pastes onto the canvas. -/
def pastedCellCount (n : Nat) (fetch_ok : Nat → Bool) (completion : List Nat) : Nat :=
  (doneListWithFailures n fetch_ok completion).length

/-- The paste loop pastes each done cell at `(position[0] - 10, position[1])`
(`src/image.py` line 372). -/
def pastePos (p : Int × Int) : Int × Int :=
  (p.1 - 10, p.2)

/-- The canvas origin at which member `i` ends up pasted, read off the
`done` list produced by completion order `completion`. -/
def pasteMap (n : Nat) (completion : List Nat) (i : Nat) : Option (Int × Int) :=
  ((doneList n completion).lookup i).map pastePos

/-- Canvas width computed by `GridScoreboardEditor.__init__`
(`src/image.py` lines 291-293). -/
def canvasWidth (n : Nat) : Int :=
  MARGIN + (COL_WIDTH + MARGIN) * ((min n MAX_COLS : Nat) : Int)

/-- Canvas height computed by `GridScoreboardEditor.__init__`
(`src/image.py` lines 294-296): note the floor division
`len(members_and_scores) // self.MAX_COLS`. -/
def canvasHeight (n : Nat) : Int :=
  HEAD_HEIGHT + MARGIN + (COL_HEIGHT + MARGIN) * ((n / MAX_COLS : Nat) : Int)

/-- The canvas width formula as the specification words it:
`canvasWidth = margin + columns·(cellWidth+margin)` with
`columns = min(N, maxColumns)`. -/
def specCanvasWidth (n : Nat) : Int :=
  MARGIN + ((min n MAX_COLS : Nat) : Int) * (COL_WIDTH + MARGIN)

/-- The row count as the specification words it: `rows = ceil(N / maxColumns)`. -/
def specRows (n : Nat) : Nat :=
  (n + MAX_COLS - 1) / MAX_COLS

/-- The canvas height formula as the specification words it:
`canvasHeight = headerHeight + margin + rows·(cellHeight+margin)`. -/
def specCanvasHeight (n : Nat) : Int :=
  HEAD_HEIGHT + MARGIN + ((specRows n : Nat) : Int) * (COL_HEIGHT + MARGIN)

/-- The fetch-outcome pattern of the partial-failure scenario: the third of
five avatar fetches fails. -/
def failing_fetch : Nat → Bool :=
  fun i => i != 2

end GridScoreboardEditor

/-- A sample instantiation of the abstract sqrt parameter, for evaluating
the score model at concrete inputs (the theorems hold for every choice). -/
def sq_sample : Rat → Rat :=
  fun q => q

/-- A sample score object (member 1 of guild 1 with stored score 0). -/
def o_sample : ScoreObject :=
  ⟨1, 1, 0⟩

/-- Two sample rows of the scores table for guild 10. -/
def rows_sample : List ScoreRow :=
  [⟨1, 10, 0, true⟩, ⟨2, 10, 7, true⟩]

/-- Every branch of the mutually recursive property cluster of
`ScoreObject` ends in RecursionError, at every fuel: the `score`
property re-enters itself before anything else can happen. -/
theorem eval_all_recursionError (sq : Rat → Rat) :
    ∀ (fuel : Nat) (o : ScoreObject),
      score_eval sq fuel o = .error .recursionError ∧
      level_eval sq fuel o = .error .recursionError ∧
      prev_level_score_eval sq fuel o = .error .recursionError ∧
      next_level_score_eval sq fuel o = .error .recursionError := by
  intro fuel
  induction fuel with
  | zero =>
      intro o
      exact ⟨rfl, rfl, rfl, rfl⟩
  | succ f ih =>
      intro o
      obtain ⟨hs, hl, _, _⟩ := ih o
      refine ⟨?_, ?_, ?_, ?_⟩
      · show (do
          let s ← score_eval sq f o
          let p ← prev_level_score_eval sq f o
          pure (s - p) : Except PyErr Rat) = .error .recursionError
        rw [hs]; rfl
      · show (do
          let s ← score_eval sq f o
          pure ((7 / 100) * sq (max s 1) + 1) : Except PyErr Rat) = .error .recursionError
        rw [hs]; rfl
      · show (do
          let l ← level_eval sq f o
          pure ((((⌈l - 2⌉ : Int) : Rat) / (7 / 100)) ^ 2) : Except PyErr Rat) =
            .error .recursionError
        rw [hl]; rfl
      · show (do
          let l ← level_eval sq f o
          pure ((((⌈l - 1⌉ : Int) : Rat) / (7 / 100)) ^ 2) : Except PyErr Rat) =
            .error .recursionError
        rw [hl]; rfl

/-- `progress` always fails with AttributeError: the undefined attribute
`current_level_score` is read first. -/
theorem progress_eval_attributeError (sq : Rat → Rat) (fuel : Nat) (o : ScoreObject) :
    progress_eval sq fuel o = .error .attributeError := by
  rfl

/-- Looking up a key in an association list built by pairing each key with
a function of itself returns that function's value at the key, no matter
where in the list the key sits. -/
theorem lookup_pairing {α : Type} (f : Nat → α) :
    ∀ (l : List Nat) (i : Nat),
      (l.map (fun j => (j, f j))).lookup i = if i ∈ l then some (f i) else none := by
  intro l
  induction l with
  | nil => intro i; simp [List.lookup]
  | cons a t ih =>
      intro i
      by_cases h : i = a
      · subst h
        simp [List.lookup]
      · have hba : (i == a) = false := beq_false_of_ne h
        simp [List.lookup, hba, h, ih]

/-- The member-to-pasted-origin mapping of the grid composer is fully
determined by the layout plan: any completion order that settles all `n`
tasks yields the mapping sending member `i` to its planned origin, shifted
left by 10 by the paste call. -/
theorem pasteMap_of_perm (n : Nat) (completion : List Nat)
    (h : completion.Perm (List.range n)) (i : Nat) :
    GridScoreboardEditor.pasteMap n completion i =
      if i < n then
        some (GridScoreboardEditor.pastePos (GridScoreboardEditor.originD n i))
      else none := by
  unfold GridScoreboardEditor.pasteMap GridScoreboardEditor.doneList
    GridScoreboardEditor.doneListWithFailures
  rw [List.filter_true, lookup_pairing]
  have hmem : i ∈ completion ↔ i < n := by
    rw [h.mem_iff, List.mem_range]
  by_cases hi : i < n
  · simp [hmem.mpr hi, hi]
  · have : i ∉ completion := fun hc => hi (hmem.mp hc)
    simp [this, hi]

/-- When the first `i` elements of a list are strictly greater than `s` and
no element from position `i` on is, exactly `i` elements pass the
strictly-greater filter. -/
theorem filter_gt_length (s : Int) :
    ∀ (l : List Int) (i : Nat), i ≤ l.length →
      (∀ j : Fin l.length, (j : Nat) < i → s < l.get j) →
      (∀ j : Fin l.length, i ≤ (j : Nat) → ¬ s < l.get j) →
      (l.filter (fun t => s < t)).length = i := by
  intro l
  induction l with
  | nil =>
      intro i hi _ _
      simp only [List.length_nil, Nat.le_zero] at hi
      simp [hi]
  | cons a t ih =>
      intro i hi hlt hge
      cases i with
      | zero =>
          have ha : ¬ s < a := hge ⟨0, Nat.succ_pos _⟩ (Nat.zero_le _)
          have hstep : (a :: t).filter (fun t => s < t) = t.filter (fun t => s < t) := by
            simp [List.filter, ha]
          rw [hstep]
          exact ih 0 (Nat.zero_le _) (fun j hj => absurd hj (Nat.not_lt_zero _))
            (fun j _ => hge ⟨(j : Nat) + 1, Nat.succ_lt_succ j.isLt⟩ (Nat.zero_le _))
      | succ k =>
          have ha : s < a := hlt ⟨0, Nat.succ_pos _⟩ (Nat.succ_pos _)
          have hstep : (a :: t).filter (fun t => s < t) = a :: t.filter (fun t => s < t) := by
            simp [List.filter, ha]
          rw [hstep, List.length_cons]
          have hk : (t.filter (fun t => s < t)).length = k := by
            refine ih k (Nat.le_of_succ_le_succ (by simpa using hi)) ?_ ?_
            · intro j hj
              exact hlt ⟨(j : Nat) + 1, Nat.succ_lt_succ j.isLt⟩ (Nat.succ_lt_succ hj)
            · intro j hj
              exact hge ⟨(j : Nat) + 1, Nat.succ_lt_succ j.isLt⟩ (Nat.succ_le_succ hj)
          rw [hk]

/-- C1: refuted on the source: the level property of `ScoreObject` never
returns a level at all, for any cumulative score, any recursion bound and
any model of float sqrt, because the `score` property it reads is defined
as `self.score - self.prev_level_score` and re-enters itself; so no
returned level can satisfy the threshold invariant
`prevLevelThreshold ≤ score < nextLevelThreshold`. -/
theorem level_invariant_unreachable (sq : Rat → Rat) (fuel : Nat) (o : ScoreObject) :
    level_eval sq fuel o = .error .recursionError :=
  (eval_all_recursionError sq fuel o).2.1

/-- C2: refuted on the source: none of the Score Model derivations is a
total value-returning function of the cumulative score: level, score,
prev and next threshold evaluation all end in RecursionError (the score
property is self-referential) and progress ends in AttributeError (it
reads the undefined attribute `current_level_score`), at every fuel, for
every score object and every model of float sqrt. -/
theorem score_model_derivations_all_fail (sq : Rat → Rat) (fuel : Nat) (o : ScoreObject) :
    score_eval sq fuel o = .error .recursionError ∧
    level_eval sq fuel o = .error .recursionError ∧
    prev_level_score_eval sq fuel o = .error .recursionError ∧
    next_level_score_eval sq fuel o = .error .recursionError ∧
    progress_eval sq fuel o = .error .attributeError := by
  obtain ⟨h1, h2, h3, h4⟩ := eval_all_recursionError sq fuel o
  exact ⟨h1, h2, h3, h4, progress_eval_attributeError sq fuel o⟩

/-- C3: the member-to-pasted-origin mapping of the grid composer is
identical for any two completion orders of the per-member render tasks,
and sends each member to its planned layout origin (shifted left by 10 by
the paste call); latency affects only the completion order, which the
mapping ignores. -/
theorem grid_placement_deterministic (n : Nat) (order1 order2 : List Nat)
    (h1 : order1.Perm (List.range n)) (h2 : order2.Perm (List.range n)) :
    (∀ i, GridScoreboardEditor.pasteMap n order1 i =
      GridScoreboardEditor.pasteMap n order2 i) ∧
    (∀ i, i < n → GridScoreboardEditor.pasteMap n order1 i =
      some (GridScoreboardEditor.pastePos (GridScoreboardEditor.originD n i))) := by
  constructor
  · intro i
    rw [pasteMap_of_perm n order1 h1 i, pasteMap_of_perm n order2 h2 i]
  · intro i hi
    rw [pasteMap_of_perm n order1 h1 i]
    simp [hi]

/-- Witness for C3: five members, two different completion orders, same
pasted origin for member 3, equal to its planned origin. -/
theorem grid_placement_deterministic_witness :
    GridScoreboardEditor.pasteMap 5 [2, 0, 4, 1, 3] 3 =
      GridScoreboardEditor.pasteMap 5 [0, 1, 2, 3, 4] 3 ∧
    GridScoreboardEditor.pasteMap 5 [2, 0, 4, 1, 3] 3 =
      some (GridScoreboardEditor.pastePos (GridScoreboardEditor.originD 5 3)) :=
  ⟨(grid_placement_deterministic 5 [2, 0, 4, 1, 3] [0, 1, 2, 3, 4]
      (by decide) (by decide)).1 3,
   (grid_placement_deterministic 5 [2, 0, 4, 1, 3] [0, 1, 2, 3, 4]
      (by decide) (by decide)).2 3 (by decide)⟩

/-- C4: refuted on the source: with five members and the third avatar
fetch failing, the paste loop pastes only four cells: the failed member's
thread dies before appending to the `done` list, so its cell is missing
from the output, no placeholder is substituted and no failure is
recorded. -/
theorem single_fetch_failure_loses_cell :
    GridScoreboardEditor.pastedCellCount 5 GridScoreboardEditor.failing_fetch
      [0, 1, 2, 3, 4] = 4 ∧
    GridScoreboardEditor.pastedCellCount 5 GridScoreboardEditor.failing_fetch
      [0, 1, 2, 3, 4] ≠ 5 ∧
    (GridScoreboardEditor.doneListWithFailures 5 GridScoreboardEditor.failing_fetch
      [0, 1, 2, 3, 4]).map Prod.fst = [0, 1, 3, 4] := by
  decide

/-- C5: refuted on the source: progress never equals the claimed formula
and never lies in [0,100]: its evaluation fails with AttributeError (the
undefined attribute `current_level_score` is read first), so the score
card's progress-bar step fails as well; the bar-drawing logic itself,
applied to an already-computed value, does floor positive progress at 5
and draws no bar at zero. -/
theorem progress_formula_fails (sq : Rat → Rat) (fuel : Nat) (o : ScoreObject) :
    progress_eval sq fuel o = .error .attributeError ∧
    draw_progress_eval sq fuel o = .error .attributeError ∧
    bar_percentage 0 = none ∧
    (∀ p : Rat, 0 < p → bar_percentage p = some (max p 5) ∧ 5 ≤ max p 5) := by
  refine ⟨progress_eval_attributeError sq fuel o, rfl, rfl, ?_⟩
  intro p hp
  exact ⟨if_pos hp, le_max_right p 5⟩

/-- Witness for C5: concrete evaluation at the sample inputs. -/
theorem progress_formula_fails_witness :
    progress_eval sq_sample 3 o_sample = .error .attributeError ∧
    bar_percentage 2 = some 5 := by
  refine ⟨(progress_formula_fails sq_sample 3 o_sample).1, ?_⟩
  have h := ((progress_formula_fails sq_sample 3 o_sample).2.2.2 2 (by norm_num)).1
  rw [h, max_eq_right (by norm_num : (2 : Rat) ≤ 5)]

/-- C6: the rank query implements competition-style RANK() semantics:
[100, 100, 50] ranks as [1, 1, 3]; rows with equal scores get equal
ranks; and in a descending leaderboard a row strictly below all earlier
rows is ranked by its 1-based position. -/
theorem rank_competition_semantics :
    ranks [100, 100, 50] = [1, 1, 3] ∧
    (∀ (scores : List Int) (i j : Fin scores.length),
      scores.get i = scores.get j →
        rankOf scores (scores.get i) = rankOf scores (scores.get j)) ∧
    (∀ (scores : List Int), scores.Sorted (· ≥ ·) →
      ∀ i : Fin scores.length,
        (∀ j : Fin scores.length, (j : Nat) < (i : Nat) → scores.get i < scores.get j) →
        rankOf scores (scores.get i) = (i : Nat) + 1) := by
  refine ⟨by decide, ?_, ?_⟩
  · intro scores i j hij
    rw [hij]
  · intro scores hsorted i hfirst
    unfold rankOf
    rw [filter_gt_length (scores.get i) scores (i : Nat) (Nat.le_of_lt i.isLt)
      hfirst ?_]
    · exact Nat.add_comm 1 (i : Nat)
    · intro j hj
      rcases Nat.eq_or_lt_of_le hj with h | h
      · have : i = j := Fin.ext h
        rw [this]
        exact lt_irrefl _
      · exact not_lt.mpr (hsorted.rel_get_of_lt (Fin.mk_lt_mk.mpr h))

/-- Witness for C6: in [100, 100, 50] the two tied rows share rank 1 and
the row with 50, strictly below both, is ranked by its position, 3. -/
theorem rank_competition_semantics_witness :
    ranks [100, 100, 50] = [1, 1, 3] ∧
    rankOf [100, 100, 50] 50 = 3 := by
  refine ⟨rank_competition_semantics.1, ?_⟩
  have h := rank_competition_semantics.2.2 [100, 100, 50] (by decide)
    ⟨2, by decide⟩ (by decide)
  simpa using h

/-- C7: partially refuted on the source: the canvas width matches the
claimed formula for every member count, but the height uses
`floor(N / maxColumns)` rather than `ceil`: at N = 13 the code allocates
1180 pixels of height (two row slots) where the claimed formula gives
1640 (three rows), and the thirteenth member's planned cell starts at
y = 1180, entirely below the canvas the code constructs. -/
theorem grid_canvas_dimensions :
    (∀ n : Nat,
      GridScoreboardEditor.canvasWidth n = GridScoreboardEditor.specCanvasWidth n) ∧
    GridScoreboardEditor.canvasHeight 13 = 1180 ∧
    GridScoreboardEditor.specCanvasHeight 13 = 1640 ∧
    GridScoreboardEditor.canvasHeight 13 ≠ GridScoreboardEditor.specCanvasHeight 13 ∧
    GridScoreboardEditor.originD 13 12 = (60, 1180) ∧
    GridScoreboardEditor.canvasHeight 13 ≤ (GridScoreboardEditor.originD 13 12).2 := by
  refine ⟨?_, by decide, by decide, by decide, by decide, by decide⟩
  intro n
  unfold GridScoreboardEditor.canvasWidth GridScoreboardEditor.specCanvasWidth
  ring

/-- C8 counterexample: at stored score -5 the level computation does not
fail with InvalidScore: it ends in RecursionError, exactly as it does for
non-negative scores. -/
theorem negative_score_no_invalidScore :
    level_eval sq_sample 100 ⟨1, 1, -5⟩ = .error .recursionError ∧
    level_eval sq_sample 100 ⟨1, 1, -5⟩ ≠ .error .invalidScore := by
  have h := (eval_all_recursionError sq_sample 100 ⟨1, 1, -5⟩).2.1
  refine ⟨h, ?_⟩
  rw [h]
  simp

/-- C8 (amended): negative scores are not rejected and no InvalidScore
error exists: the level expression clamps its sqrt operand to a minimum
of 1 via `max(score, 1)`, treating negative scores like any score below
1, and level evaluation ends in RecursionError - never InvalidScore -
for every input, negative or not. -/
theorem negative_score_clamped (sq : Rat → Rat) (fuel : Nat) (o : ScoreObject)
    (s : Rat) (hs : s ≤ 0) :
    sqrt_arg s = 1 ∧
    level_eval sq fuel o = .error .recursionError ∧
    level_eval sq fuel o ≠ .error .invalidScore := by
  have h := (eval_all_recursionError sq fuel o).2.1
  refine ⟨?_, h, ?_⟩
  · unfold sqrt_arg
    exact max_eq_right (le_trans hs (by norm_num))
  · rw [h]
    simp

/-- Witness for C8's amended claim at score -5. -/
theorem negative_score_clamped_witness :
    ((-5 : Rat) ≤ 0) ∧ sqrt_arg (-5) = 1 :=
  ⟨by norm_num, (negative_score_clamped sq_sample 3 o_sample (-5) (by norm_num)).1⟩

/-- C9 counterexample: invisible resolves to blurple with no overlay
icon while offline resolves to light grey with a 40-by-40 circle overlay
at (25, 25): the two visual treatments differ. -/
theorem invisible_differs_from_offline :
    get_status .invisible = .ok (.blurple, none, none) ∧
    get_status .offline = .ok (.light_grey, some ⟨.circle, 40, 40⟩, some (25, 25)) ∧
    get_status .invisible ≠ get_status .offline := by
  refine ⟨rfl, rfl, ?_⟩
  simp [get_status]

/-- C9 (amended): invisible resolves to the named colour blurple without
raising, but its visual treatment is distinguishable from offline, which
gets light grey plus a circle overlay icon; a status outside the five
enumerated variants (streaming) fails with ValueError. -/
theorem status_lookup_behaviour :
    get_status .invisible = .ok (.blurple, none, none) ∧
    get_status .offline = .ok (.light_grey, some ⟨.circle, 40, 40⟩, some (25, 25)) ∧
    get_status .streaming = .error .valueError :=
  ⟨rfl, rfl, rfl⟩

/-- C10: a message from a non-bot author adds exactly 30 to the author's
rows in the message's guild and leaves every other row untouched; a
message from a bot leaves the whole table unchanged. -/
theorem on_message_score_update (author_id guild_id : Int) (rows : List ScoreRow) :
    on_message true author_id guild_id rows = rows ∧
    (on_message false author_id guild_id rows).length = rows.length ∧
    (∀ (i : Nat) (h : i < rows.length)
        (h2 : i < (on_message false author_id guild_id rows).length),
      ((rows.get ⟨i, h⟩).member_id = author_id ∧
          (rows.get ⟨i, h⟩).guild_id = guild_id →
        (on_message false author_id guild_id rows).get ⟨i, h2⟩ =
          { rows.get ⟨i, h⟩ with score := (rows.get ⟨i, h⟩).score + 30 }) ∧
      (¬((rows.get ⟨i, h⟩).member_id = author_id ∧
          (rows.get ⟨i, h⟩).guild_id = guild_id) →
        (on_message false author_id guild_id rows).get ⟨i, h2⟩ = rows.get ⟨i, h⟩)) := by
  refine ⟨rfl, ?_, ?_⟩
  · simp [on_message, update_scores]
  · intro i h h2
    constructor
    · intro hmatch
      simp only [on_message, if_neg Bool.false_ne_true, update_scores,
        List.get_eq_getElem, List.getElem_map]
      simp [List.get_eq_getElem] at hmatch
      rw [if_pos hmatch]
    · intro hmatch
      simp only [on_message, if_neg Bool.false_ne_true, update_scores,
        List.get_eq_getElem, List.getElem_map]
      simp [List.get_eq_getElem] at hmatch
      rw [if_neg]
      intro hc
      exact absurd hc (by simpa using hmatch)

/-- Witness for C10: in the sample table, a non-bot message from member 1
in guild 10 raises row 0 from 0 to 30 and leaves row 1 at 7; a bot
message changes nothing. -/
theorem on_message_score_update_witness :
    on_message true 1 10 rows_sample = rows_sample ∧
    (on_message false 1 10 rows_sample).get ⟨0, by decide⟩ = ⟨1, 10, 30, true⟩ ∧
    (on_message false 1 10 rows_sample).get ⟨1, by decide⟩ = ⟨2, 10, 7, true⟩ := by
  refine ⟨(on_message_score_update 1 10 rows_sample).1, ?_, ?_⟩
  · have h := ((on_message_score_update 1 10 rows_sample).2.2 0 (by decide)
      (by decide)).1 (by decide)
    rw [h]
    rfl
  · have h := ((on_message_score_update 1 10 rows_sample).2.2 1 (by decide)
      (by decide)).2 (by decide)
    rw [h]
    rfl

end OneScore
